import Mathlib

/-!
Shallow embedding of `src/main.go` of the `aws-lambda-function` repository
(package `main`): the token-holder fund-distribution Lambda handler.

The embedding covers the parts of the program the specification's claims
are about:

* the fee/split arithmetic of `HandleEvent` (lines 101-128), extracted as
  the spec's `computeDistribution` contract (Go `big.Int` arithmetic is
  arbitrary-precision integer arithmetic, embedded as `Int`; Go
  `big.Int.Div` is Euclidean division, embedded as `Int.ediv`);
* the sequencing skeleton of `HandleEvent` (lines 101-171): each fallible
  step's outcome is supplied by a `StepEnv` oracle, and the function
  records the trace of step invocations with the transferred values;
* `waitForTx` (lines 178-217): the backend is a `Backend` oracle giving
  the result of each successive `TransactionReceipt` query, cancellation
  is the time at which `ctx.Done()` fires, `time.After(4 * time.Second)`
  advances time by the fixed 4-unit interval, and the unbounded `for`
  loop is given explicit fuel (a result `outOfFuel` marks exhaustion and
  never arises under the claims' hypotheses).

Steps preceding the balance check (config parsing, client dial, gas price
and balance queries, key parsing) are modelled as already-successful
inputs: the claims under study all presuppose them.
-/

/-- Embedded from `src/main.go` line 31: `gasLimit = int64(21000)`. -/
def gasLimit : Int := 21000

/-- The spec's `SplitResult`: the two shares computed at
`src/main.go` lines 115 and 128. -/
structure SplitResult where
  primaryShare : Int
  secondaryShare : Int
deriving Repr, DecidableEq

/-- The spec's `InsufficientFunds` failure of `computeDistribution`
(`src/main.go` line 106). -/
inductive DistributionError
  | insufficientFunds
deriving Repr, DecidableEq

/-- The spec's `computeDistribution(rawBalance, gasPrice, gasLimit)`,
embedded from `src/main.go` lines 101-128:

* line 102: `vaultBalance.Sub(vaultBalance, Mul(big.NewInt(gasLimit*2), gasPrice))`
* line 105: `vaultBalance.Cmp(big.NewInt(0)) != 1` aborts (`Cmp` returns 1
  only when the balance is strictly positive);
* line 115: primary value `Div(vaultBalance, int3)`;
* line 128: secondary value `Mul(Div(vaultBalance, int3), int2)`.

`big.Int.Div` is Euclidean division, which is `Int` division
(`Int.ediv`) in Lean. -/
def computeDistribution (rawBalance gasPrice : Int) :
    Except DistributionError SplitResult :=
  let netBalance := rawBalance - gasLimit * 2 * gasPrice
  if netBalance ≤ 0 then
    .error .insufficientFunds
  else
    .ok ⟨netBalance / 3, (netBalance / 3) * 2⟩

/-- The four on-chain steps of `HandleEvent`: the two value transfers
(lines 116 and 129) and the two contract calls (lines 148 and 160). -/
inductive Step
  | transfer1
  | transfer2
  | sellVouchers
  | buyVouchers
deriving Repr, DecidableEq

/-- Position of a step in the orchestration order. -/
def stepOrder : Step → Nat
  | .transfer1 => 0
  | .transfer2 => 1
  | .sellVouchers => 2
  | .buyVouchers => 3

/-- Whether a step failed at submission (`Transfer` / contract-call
returning an error) or while awaiting confirmation (`waitForTx`). -/
inductive Phase
  | submit
  | wait
deriving Repr, DecidableEq

/-- Outcome oracle for the fallible operations of `HandleEvent` after the
balance check: `true` means the operation succeeds. `contractLoad` is the
`NewdeqodeTokenHolderProgramContract` instantiation at line 141. -/
structure StepEnv where
  transfer1Submit : Bool
  transfer1Wait : Bool
  transfer2Submit : Bool
  transfer2Wait : Bool
  contractLoad : Bool
  sellSubmit : Bool
  sellWait : Bool
  buySubmit : Bool
  buyWait : Bool
deriving Repr, DecidableEq

/-- Result of a `HandleEvent` run (from the balance check onward). -/
inductive RunResult
  | success (msg : String)
  | insufficientFunds
  | contractLoadFailure
  | stepFailure (s : Step) (ph : Phase)
deriving Repr, DecidableEq

/-- The sequencing skeleton of `HandleEvent` (`src/main.go` lines
101-171), from the fee subtraction onward.  Returns the run result
together with the trace of step invocations, each with the transferred
value (`none` for the two contract calls, which carry no explicit value).
A step is invoked (appears in the trace) as soon as its submission is
attempted; the first failure aborts the run with no further invocations,
exactly as each `return formatError(...)` in the source does.  The
success message embeds the triggering event's time verbatim, as
`fmt.Sprintf("Token holder event successfully called at %s!", event.Time)`
at line 171 does. -/
def HandleEvent (vaultBalance gasPrice : Int) (env : StepEnv)
    (eventTime : String) : RunResult × List (Step × Option Int) :=
  -- line 102: subtract the fee reserve gasLimit*2*gasPrice
  let netBalance := vaultBalance - gasLimit * 2 * gasPrice
  -- lines 105-107: abort unless the net balance is strictly positive
  if netBalance ≤ 0 then
    (.insufficientFunds, [])
  else
    -- line 115: vaultAuth.Value = Div(vaultBalance, int3)
    let primary := netBalance / 3
    let t1 : List (Step × Option Int) := [(.transfer1, some primary)]
    if env.transfer1Submit = false then (.stepFailure .transfer1 .submit, t1)
    else if env.transfer1Wait = false then (.stepFailure .transfer1 .wait, t1)
    else
      -- line 128: vaultAuth.Value = Mul(Div(vaultBalance, int3), int2)
      let secondary := (netBalance / 3) * 2
      let t2 := t1 ++ [(.transfer2, some secondary)]
      if env.transfer2Submit = false then (.stepFailure .transfer2 .submit, t2)
      else if env.transfer2Wait = false then (.stepFailure .transfer2 .wait, t2)
      -- line 141: contract instantiation
      else if env.contractLoad = false then (.contractLoadFailure, t2)
      else
        let t3 := t2 ++ [(.sellVouchers, none)]
        if env.sellSubmit = false then (.stepFailure .sellVouchers .submit, t3)
        else if env.sellWait = false then (.stepFailure .sellVouchers .wait, t3)
        else
          let t4 := t3 ++ [(.buyVouchers, none)]
          if env.buySubmit = false then (.stepFailure .buyVouchers .submit, t4)
          else if env.buyWait = false then (.stepFailure .buyVouchers .wait, t4)
          else
            (.success ("Token holder event successfully called at "
              ++ eventTime ++ "!"), t4)

/-- The oracle for `StepEnv` in which every operation succeeds. -/
def allOk : StepEnv := ⟨true, true, true, true, true, true, true, true, true⟩

/-! ## `waitForTx` (`src/main.go` lines 178-217) -/

/-- Outcome of one `backend.TransactionReceipt` query: either an error
(Go returns `ethereum.NotFound` as an ordinary error value, so errors are
identified by a code with `notFoundCode` distinguished) or a receipt with
an execution status. -/
inductive QueryResult
  | err (e : Nat)
  | receipt (status : Nat)
deriving Repr, DecidableEq

/-- Error code standing for `ethereum.NotFound`. -/
def notFoundCode : Nat := 0

/-- `types.ReceiptStatusSuccessful` (value 1 on the chain). -/
def receiptStatusSuccessful : Nat := 1

/-- The chain backend as `waitForTx` sees it: whether the runtime type
assertion `backend.(commiter)` succeeds (line 184), and the outcome of
the n-th `TransactionReceipt` query (0-based). -/
structure Backend where
  hasCommit : Bool
  query : Nat → QueryResult

/-- Terminal outcome of `waitForTx`. `chainError` is a propagated
receipt-query error (`return err`), `receiptFailed` the
`"tx failed: %+v"` error carrying the receipt, `cancelled` the
`ctx.Err()` return, `outOfFuel` marks exhausted modelling fuel. -/
inductive WaitOutcome
  | confirmed
  | receiptFailed (status : Nat)
  | chainError (e : Nat)
  | cancelled
  | outOfFuel
deriving Repr, DecidableEq

/-- Observable summary of a `waitForTx` run: the outcome, how many times
`Commit()` was invoked, how many `TransactionReceipt` queries were
issued, and the elapsed time in time-units at termination (each poll
interval is 4 time-units; the commit fast path takes no interval). -/
structure WaitResult where
  outcome : WaitOutcome
  commits : Nat
  queries : Nat
  elapsed : Nat
deriving Repr, DecidableEq

/-- Whether the cancellation signal (fired at time `c`, if at all) wins
the `select` against a timer expiring at time `t`: the `ctx.Done()`
branch is taken when the signal fires strictly before the timer. -/
def cancelFired (cancel : Option Nat) (t : Nat) : Bool :=
  match cancel with
  | some c => decide (c < t)
  | none => false

/-- The polling loop of `waitForTx` (`src/main.go` lines 196-216),
starting at iteration `i` (so far `i` queries were issued and `4*i`
time-units elapsed).  Each iteration first runs the `select` between
`ctx.Done()` and `time.After(4 * time.Second)` (lines 197-201), then
queries the receipt (line 203): a `NotFound` error continues the loop,
any other error is returned, a receipt with non-success status yields
the `"tx failed"` error, and a successful receipt returns `nil`. -/
def waitLoop (b : Backend) (cancel : Option Nat) : Nat → Nat → WaitResult
  | 0, i => ⟨.outOfFuel, 0, i, 4 * i⟩
  | fuel + 1, i =>
    if cancelFired cancel (4 * (i + 1)) then
      ⟨.cancelled, 0, i, 4 * i⟩
    else
      match b.query i with
      | .err e =>
        if e = notFoundCode then waitLoop b cancel fuel (i + 1)
        else ⟨.chainError e, 0, i + 1, 4 * (i + 1)⟩
      | .receipt s =>
        if s = receiptStatusSuccessful then ⟨.confirmed, 0, i + 1, 4 * (i + 1)⟩
        else ⟨.receiptFailed s, 0, i + 1, 4 * (i + 1)⟩

/-- `waitForTx` (`src/main.go` lines 178-217).  If the backend satisfies
the `commiter` interface (lines 181-194), `Commit()` is invoked once and
a single synchronous receipt query decides the outcome with no polling
and no elapsed interval; otherwise the polling loop runs. -/
def waitForTx (b : Backend) (cancel : Option Nat) (fuel : Nat) : WaitResult :=
  if b.hasCommit then
    match b.query 0 with
    | .err e => ⟨.chainError e, 1, 1, 0⟩
    | .receipt s =>
      if s = receiptStatusSuccessful then ⟨.confirmed, 1, 1, 0⟩
      else ⟨.receiptFailed s, 1, 1, 0⟩
  else
    waitLoop b cancel fuel 0

/-- A polling backend whose receipt query reports `NotFound` on the
first two queries and a successful receipt on the third. -/
def twoNotFoundBackend : Backend :=
  ⟨false, fun i => if i < 2 then .err notFoundCode else .receipt receiptStatusSuccessful⟩

/-- A polling backend whose receipt queries always report `NotFound`. -/
def neverFoundBackend : Backend :=
  ⟨false, fun _ => .err notFoundCode⟩

/-- A polling backend reporting `NotFound` once, then a failed-status
receipt. -/
def failedReceiptBackend : Backend :=
  ⟨false, fun i => if i = 0 then .err notFoundCode else .receipt 0⟩

/-- A polling backend reporting `NotFound` once, then a receipt-query
error other than `NotFound`. -/
def chainErrorBackend : Backend :=
  ⟨false, fun i => if i = 0 then .err notFoundCode else .err 5⟩

/-- A manual-commit backend whose single receipt query returns a
failed-status receipt. -/
def commitFailBackend : Backend :=
  ⟨true, fun _ => .receipt 0⟩

/-- A polling backend whose very first receipt query already returns a
successful receipt. -/
def immediateBackend : Backend :=
  ⟨false, fun _ => .receipt receiptStatusSuccessful⟩

/-! ## Helper lemmas -/

/-- Skipping `k` consecutive `NotFound` responses: each consumes one
poll interval and one unit of fuel. -/
theorem waitLoop_skip (b : Backend) (k : Nat) :
    ∀ fuel i, (∀ j, j < k → b.query (i + j) = .err notFoundCode) →
    k ≤ fuel →
    waitLoop b none fuel i = waitLoop b none (fuel - k) (i + k) := by
  induction k with
  | zero => intro fuel i _ _; simp
  | succ k ih =>
    intro fuel i hq hk
    cases fuel with
    | zero => omega
    | succ f =>
      have h0 : b.query i = .err notFoundCode := by
        have := hq 0 (by omega)
        simpa using this
      rw [waitLoop]
      simp only [cancelFired, Bool.false_eq_true, if_false, h0,
        if_pos rfl, eq_self_iff_true, if_true]
      have hrec := ih f (i + 1)
        (fun j hj => by
          have := hq (j + 1) (by omega)
          simpa [Nat.add_assoc, Nat.add_comm, Nat.add_left_comm] using this)
        (by omega)
      rw [hrec]
      have h1 : i + 1 + k = i + (k + 1) := by omega
      have h2 : f - k = f + 1 - (k + 1) := by omega
      rw [h1, h2]

/-- After `k` `NotFound` responses, a successful receipt on query `k`
confirms at time `4 * (k + 1)` having issued `k + 1` queries. -/
theorem waitLoop_confirm (b : Backend) (k fuel : Nat)
    (hnf : ∀ j, j < k → b.query j = .err notFoundCode)
    (hk : b.query k = .receipt receiptStatusSuccessful)
    (hfuel : k < fuel) :
    waitLoop b none fuel 0 = ⟨.confirmed, 0, k + 1, 4 * (k + 1)⟩ := by
  have hskip := waitLoop_skip b k fuel 0
    (fun j hj => by simpa using hnf j hj) (by omega)
  rw [hskip]
  obtain ⟨f, hf⟩ : ∃ f, fuel - k = f + 1 := ⟨fuel - k - 1, by omega⟩
  rw [hf, Nat.zero_add, waitLoop]
  simp [cancelFired, hk]

/-- If every query that the cancellation signal allows returns
`NotFound`, the loop terminates `cancelled` at iteration `c / 4`. -/
theorem waitLoop_cancelled (b : Backend) (c : Nat)
    (hq : ∀ j, 4 * (j + 1) ≤ c → b.query j = .err notFoundCode) :
    ∀ fuel i, 4 * i ≤ c → c < 4 * (i + fuel) →
    waitLoop b (some c) fuel i = ⟨.cancelled, 0, c / 4, 4 * (c / 4)⟩ := by
  intro fuel
  induction fuel with
  | zero => intro i h1 h2; omega
  | succ f ih =>
    intro i h1 h2
    rw [waitLoop]
    by_cases hc : c < 4 * (i + 1)
    · have hi : c / 4 = i := by omega
      simp [cancelFired, hc, hi]
    · push_neg at hc
      have hqi : b.query i = .err notFoundCode := hq i hc
      simp only [cancelFired, decide_eq_true_eq, if_neg (by omega : ¬ c < 4 * (i + 1)), hqi,
        if_pos rfl]
      exact ih (i + 1) hc (by omega)

/-! ## Claim theorems -/

/-- C1: for every raw balance `B` and gas price `P` with
`B > gasLimit * 2 * P` (the fixed `gasLimit` being 21000), the
distribution computation returns `primaryShare = ⌊netBalance / 3⌋` and
`secondaryShare = 2 * primaryShare` exactly, where
`netBalance = B - gasLimit * 2 * P`, and
`primaryShare + secondaryShare ≤ netBalance`: the division-by-3
remainder is not distributed. -/
theorem computeDistribution_split (B P : Int)
    (h : gasLimit * 2 * P < B) :
    ∃ sr, computeDistribution B P = .ok sr ∧
      sr.primaryShare = (B - gasLimit * 2 * P) / 3 ∧
      sr.secondaryShare = 2 * sr.primaryShare ∧
      sr.primaryShare + sr.secondaryShare ≤ B - gasLimit * 2 * P := by
  have hpos : ¬ (B - gasLimit * 2 * P ≤ 0) := by
    simp only [gasLimit] at h ⊢; omega
  refine ⟨⟨(B - gasLimit * 2 * P) / 3, ((B - gasLimit * 2 * P) / 3) * 2⟩,
    ?_, rfl, by ring, ?_⟩
  · simp only [computeDistribution, if_neg hpos]
  · simp only
    omega

/-- C1 witness: the theorem at `B = 900000`, `P = 10`. -/
theorem computeDistribution_split_witness :
    gasLimit * 2 * 10 < (900000 : Int) ∧
    ∃ sr, computeDistribution 900000 10 = .ok sr ∧
      sr.primaryShare = ((900000 : Int) - gasLimit * 2 * 10) / 3 ∧
      sr.secondaryShare = 2 * sr.primaryShare ∧
      sr.primaryShare + sr.secondaryShare ≤ (900000 : Int) - gasLimit * 2 * 10 :=
  ⟨by decide, computeDistribution_split 900000 10 (by decide)⟩

/-- C2: the run aborts with the insufficient-funds error — and before any
transfer is submitted, i.e. with an empty invocation trace — if and only
if `B - gasLimit * 2 * P ≤ 0` (a net balance of exactly zero is also
insufficient, since `Cmp` must return 1). -/
theorem HandleEvent_insufficient_iff (B P : Int) (env : StepEnv)
    (ts : String) :
    ((HandleEvent B P env ts).1 = .insufficientFunds ↔
      B - gasLimit * 2 * P ≤ 0) ∧
    ((HandleEvent B P env ts).1 = .insufficientFunds →
      (HandleEvent B P env ts).2 = []) := by
  by_cases h : B - gasLimit * 2 * P ≤ 0
  · simp [HandleEvent, if_pos h, h]
  · simp only [HandleEvent, if_neg h]
    split_ifs <;> simp [h]

/-- C2 witness: the theorem at `B = 100`, `P = 10` (insufficient) yields
an `insufficientFunds` abort with an empty trace. -/
theorem HandleEvent_insufficient_iff_witness :
    (HandleEvent 100 10 allOk "ts").1 = .insufficientFunds ∧
    (HandleEvent 100 10 allOk "ts").2 = [] := by
  have h := HandleEvent_insufficient_iff 100 10 allOk "ts"
  have h1 := h.1.mpr (by decide)
  exact ⟨h1, h.2 h1⟩

/-- C5: for balance 900000, gas price 10 (and the fixed gas limit 21000),
the fee reserve is 420000, the net balance 480000, the primary share
160000 and the secondary share 320000; a run in which every operation
succeeds invokes the four steps in order with exactly those values and
returns the success message embedding the triggering event's timestamp
unmodified. -/
theorem HandleEvent_concrete_900000 (ts : String) :
    gasLimit * 2 * 10 = (420000 : Int) ∧
    (900000 : Int) - gasLimit * 2 * 10 = 480000 ∧
    computeDistribution 900000 10 = .ok ⟨160000, 320000⟩ ∧
    HandleEvent 900000 10 allOk ts =
      (.success ("Token holder event successfully called at " ++ ts ++ "!"),
       [(.transfer1, some 160000), (.transfer2, some 320000),
        (.sellVouchers, none), (.buyVouchers, none)]) :=
  ⟨by decide, by decide, rfl, rfl⟩

/-- Exhaustive enumeration of the possible results of `HandleEvent`. -/
theorem HandleEvent_cases (B P : Int) (env : StepEnv) (ts : String) :
    HandleEvent B P env ts = (.insufficientFunds, []) ∨
    HandleEvent B P env ts = (.stepFailure .transfer1 .submit,
      [(.transfer1, some ((B - gasLimit * 2 * P) / 3))]) ∨
    HandleEvent B P env ts = (.stepFailure .transfer1 .wait,
      [(.transfer1, some ((B - gasLimit * 2 * P) / 3))]) ∨
    HandleEvent B P env ts = (.stepFailure .transfer2 .submit,
      [(.transfer1, some ((B - gasLimit * 2 * P) / 3)),
       (.transfer2, some ((B - gasLimit * 2 * P) / 3 * 2))]) ∨
    HandleEvent B P env ts = (.stepFailure .transfer2 .wait,
      [(.transfer1, some ((B - gasLimit * 2 * P) / 3)),
       (.transfer2, some ((B - gasLimit * 2 * P) / 3 * 2))]) ∨
    HandleEvent B P env ts = (.contractLoadFailure,
      [(.transfer1, some ((B - gasLimit * 2 * P) / 3)),
       (.transfer2, some ((B - gasLimit * 2 * P) / 3 * 2))]) ∨
    HandleEvent B P env ts = (.stepFailure .sellVouchers .submit,
      [(.transfer1, some ((B - gasLimit * 2 * P) / 3)),
       (.transfer2, some ((B - gasLimit * 2 * P) / 3 * 2)),
       (.sellVouchers, none)]) ∨
    HandleEvent B P env ts = (.stepFailure .sellVouchers .wait,
      [(.transfer1, some ((B - gasLimit * 2 * P) / 3)),
       (.transfer2, some ((B - gasLimit * 2 * P) / 3 * 2)),
       (.sellVouchers, none)]) ∨
    HandleEvent B P env ts = (.stepFailure .buyVouchers .submit,
      [(.transfer1, some ((B - gasLimit * 2 * P) / 3)),
       (.transfer2, some ((B - gasLimit * 2 * P) / 3 * 2)),
       (.sellVouchers, none), (.buyVouchers, none)]) ∨
    HandleEvent B P env ts = (.stepFailure .buyVouchers .wait,
      [(.transfer1, some ((B - gasLimit * 2 * P) / 3)),
       (.transfer2, some ((B - gasLimit * 2 * P) / 3 * 2)),
       (.sellVouchers, none), (.buyVouchers, none)]) ∨
    HandleEvent B P env ts = (.success
      ("Token holder event successfully called at " ++ ts ++ "!"),
      [(.transfer1, some ((B - gasLimit * 2 * P) / 3)),
       (.transfer2, some ((B - gasLimit * 2 * P) / 3 * 2)),
       (.sellVouchers, none), (.buyVouchers, none)]) := by
  by_cases h : B ≤ gasLimit * 2 * P
  · left
    simp [HandleEvent, h]
  · obtain ⟨t1s, t1w, t2s, t2w, cl, ss, sw, bs, bw⟩ := env
    cases t1s with
    | false => simp [HandleEvent, h]
    | true => cases t1w with
      | false => simp [HandleEvent, h]
      | true => cases t2s with
        | false => simp [HandleEvent, h]
        | true => cases t2w with
          | false => simp [HandleEvent, h]
          | true => cases cl with
            | false => simp [HandleEvent, h]
            | true => cases ss with
              | false => simp [HandleEvent, h]
              | true => cases sw with
                | false => simp [HandleEvent, h]
                | true => cases bs with
                  | false => simp [HandleEvent, h]
                  | true => cases bw with
                    | false => simp [HandleEvent, h]
                    | true => simp [HandleEvent, h]

/-- C3: a failure at any step terminates the run immediately: every step
in the invocation trace of a failed run is at or before the failed step
in the orchestration order, and in particular if the first transfer
fails, the second transfer and the two voucher calls are never
invoked. -/
theorem HandleEvent_shortCircuit (B P : Int) (env : StepEnv) (ts : String)
    (s : Step) (ph : Phase)
    (hfail : (HandleEvent B P env ts).1 = .stepFailure s ph) :
    (∀ s' v, (s', v) ∈ (HandleEvent B P env ts).2 →
      stepOrder s' ≤ stepOrder s) ∧
    (s = .transfer1 →
      (HandleEvent B P env ts).2.map Prod.fst = [.transfer1]) := by
  rcases HandleEvent_cases B P env ts with
    h | h | h | h | h | h | h | h | h | h | h
  all_goals rw [h] at hfail ⊢
  all_goals simp at hfail
  all_goals obtain ⟨rfl, rfl⟩ := hfail
  all_goals refine ⟨fun s' v hm => ?_, fun hs => ?_⟩
  all_goals try (rcases s' <;> simp_all [stepOrder])
  all_goals simp_all [stepOrder]

/-- A step-outcome oracle in which the first transfer confirms but the
second transfer fails while awaiting confirmation. -/
def transfer2WaitFails : StepEnv :=
  ⟨true, true, true, false, true, true, true, true, true⟩

/-- C3 witness: the theorem applied to a run over `transfer2WaitFails`
with balance 900000 and gas price 10, at the first transfer's trace
entry. -/
theorem HandleEvent_shortCircuit_witness :
    stepOrder Step.transfer1 ≤ stepOrder Step.transfer2 ∧
    (HandleEvent 900000 10 transfer2WaitFails "ts").1 =
      .stepFailure .transfer2 .wait :=
  ⟨(HandleEvent_shortCircuit 900000 10 transfer2WaitFails "ts"
      .transfer2 .wait rfl).1 .transfer1 (some 160000) (by decide),
   rfl⟩

/-- C10: in the polling path (no force-commit capability) every receipt
query, including the first, is preceded by a full 4-time-unit interval
(the `select` at lines 197-201 precedes the query at line 203, with no
zero-delay check at entry): a transaction whose receipt appears only
after `k` `NotFound` responses resolves exactly — hence no earlier
than — `k + 1` intervals after the wait begins, with `k + 1` queries
issued. -/
theorem waitForTx_interval_before_every_query (b : Backend) (k fuel : Nat)
    (hb : b.hasCommit = false)
    (hnf : ∀ j, j < k → b.query j = .err notFoundCode)
    (hk : b.query k = .receipt receiptStatusSuccessful)
    (hfuel : k < fuel) :
    waitForTx b none fuel = ⟨.confirmed, 0, k + 1, 4 * (k + 1)⟩ := by
  simp only [waitForTx, hb, Bool.false_eq_true, if_false]
  exact waitLoop_confirm b k fuel hnf hk hfuel

/-- C10 witness: a backend whose very first query already has the
receipt still resolves only one full interval (4 time-units) after the
wait begins. -/
theorem waitForTx_interval_before_every_query_witness :
    immediateBackend.hasCommit = false ∧
    waitForTx immediateBackend none 1 = ⟨.confirmed, 0, 1, 4⟩ :=
  ⟨rfl, by
    have h := waitForTx_interval_before_every_query immediateBackend 0 1 rfl
      (fun j hj => absurd hj (Nat.not_lt_zero j)) rfl (by decide)
    simpa using h⟩

/-- C4 (amended): for a polling backend whose receipt query returns
`NotFound` on the first two queries and a success-status receipt on the
third, the wait resolves `confirmed` after exactly three poll intervals
(12 time-units) have elapsed — not two, since each query (the first
included) is preceded by one full interval. -/
theorem waitForTx_two_notFound_three_intervals (b : Backend) (fuel : Nat)
    (hb : b.hasCommit = false)
    (h0 : b.query 0 = .err notFoundCode)
    (h1 : b.query 1 = .err notFoundCode)
    (h2 : b.query 2 = .receipt receiptStatusSuccessful)
    (hfuel : 3 ≤ fuel) :
    waitForTx b none fuel = ⟨.confirmed, 0, 3, 3 * 4⟩ := by
  simp only [waitForTx, hb, Bool.false_eq_true, if_false]
  have h := waitLoop_confirm b 2 fuel
    (fun j hj => by
      rcases j with _ | _ | j
      · exact h0
      · exact h1
      · omega)
    h2 (by omega)
  simpa using h

/-- C4 counterexample: on the very backend of the claim (two `NotFound`
responses, then a successful receipt), the wait confirms after 12
time-units — three poll intervals — and not after two intervals
(8 time-units) as claimed. -/
theorem waitForTx_two_intervals_counterexample :
    twoNotFoundBackend.hasCommit = false ∧
    twoNotFoundBackend.query 0 = .err notFoundCode ∧
    twoNotFoundBackend.query 1 = .err notFoundCode ∧
    twoNotFoundBackend.query 2 = .receipt receiptStatusSuccessful ∧
    (waitForTx twoNotFoundBackend none 10).outcome = .confirmed ∧
    (waitForTx twoNotFoundBackend none 10).elapsed = 3 * 4 ∧
    ¬ (waitForTx twoNotFoundBackend none 10).elapsed = 2 * 4 := by
  decide

/-- C4 witness: the amended theorem at the concrete backend with fuel
10. -/
theorem waitForTx_two_notFound_three_intervals_witness :
    waitForTx twoNotFoundBackend none 10 = ⟨.confirmed, 0, 3, 3 * 4⟩ :=
  waitForTx_two_notFound_three_intervals twoNotFoundBackend 10 rfl rfl rfl
    rfl (by decide)

/-- C6: if the cancellation signal fires at time `c` before the polled
transaction resolves (every query the signal allows still reports
`NotFound`), the wait fails `cancelled`, and every receipt query that was
issued happened at a time `4 * (j + 1) ≤ c`, i.e. no query is issued
after the signal fires: the signal is checked each iteration and wins
the `select` against an in-progress interval wait. -/
theorem waitForTx_cancelled_no_further_queries (b : Backend) (c fuel : Nat)
    (hb : b.hasCommit = false)
    (hq : ∀ j, 4 * (j + 1) ≤ c → b.query j = .err notFoundCode)
    (hfuel : c < 4 * fuel) :
    (waitForTx b (some c) fuel).outcome = .cancelled ∧
    ∀ j, j < (waitForTx b (some c) fuel).queries → 4 * (j + 1) ≤ c := by
  have h := waitLoop_cancelled b c hq fuel 0 (by omega) (by omega)
  have hw : waitForTx b (some c) fuel = ⟨.cancelled, 0, c / 4, 4 * (c / 4)⟩ := by
    simp only [waitForTx, hb, Bool.false_eq_true, if_false]
    exact h
  rw [hw]
  refine ⟨rfl, fun j hj => ?_⟩
  have hj' : j < c / 4 := hj
  omega

/-- C6 witness: the signal fires at time 9 against an all-`NotFound`
backend; the wait is cancelled and the second query (issued at time 8)
was the last one allowed. -/
theorem waitForTx_cancelled_no_further_queries_witness :
    (waitForTx neverFoundBackend (some 9) 10).outcome = .cancelled ∧
    4 * (1 + 1) ≤ 9 :=
  ⟨(waitForTx_cancelled_no_further_queries neverFoundBackend 9 10 rfl
      (fun _ _ => rfl) (by decide)).1,
   (waitForTx_cancelled_no_further_queries neverFoundBackend 9 10 rfl
      (fun _ _ => rfl) (by decide)).2 1 (by decide)⟩

/-- C7: whenever a receipt query returns a receipt whose status is not
successful (after any number of `NotFound` responses), the wait fails
with the receipt-failed error carrying that receipt's status, having
issued exactly `k + 1` queries: no further query, no retry. -/
theorem waitForTx_receiptFailed_no_retry (b : Backend) (k fuel s : Nat)
    (hb : b.hasCommit = false)
    (hnf : ∀ j, j < k → b.query j = .err notFoundCode)
    (hk : b.query k = .receipt s)
    (hs : s ≠ receiptStatusSuccessful)
    (hfuel : k < fuel) :
    waitForTx b none fuel = ⟨.receiptFailed s, 0, k + 1, 4 * (k + 1)⟩ := by
  simp only [waitForTx, hb, Bool.false_eq_true, if_false]
  have hskip := waitLoop_skip b k fuel 0
    (fun j hj => by simpa using hnf j hj) (by omega)
  rw [hskip]
  obtain ⟨f, hf⟩ : ∃ f, fuel - k = f + 1 := ⟨fuel - k - 1, by omega⟩
  rw [hf, Nat.zero_add, waitLoop]
  simp [cancelFired, hk, hs]

/-- C7 witness: one `NotFound`, then a failed-status receipt: the wait
fails `receiptFailed 0` after exactly two queries. -/
theorem waitForTx_receiptFailed_no_retry_witness :
    waitForTx failedReceiptBackend none 10 =
      ⟨.receiptFailed 0, 0, 2, 4 * 2⟩ := by
  have h := waitForTx_receiptFailed_no_retry failedReceiptBackend 1 10 0 rfl
    (fun j hj => by
      rcases j with _ | j
      · rfl
      · omega)
    rfl (by decide) (by decide)
  simpa using h

/-- C8: a `NotFound` receipt-query result keeps the wait pending and
retries after the fixed interval (the loop recurses with one less unit
of fuel and the next query index), whereas the first receipt-query error
other than `NotFound` terminates the wait immediately with that error
value and no retry: exactly `k + 1` queries are issued. -/
theorem waitForTx_notFound_retries_error_aborts (b : Backend)
    (k fuel e : Nat)
    (hb : b.hasCommit = false)
    (hnf : ∀ j, j < k → b.query j = .err notFoundCode)
    (hk : b.query k = .err e)
    (he : e ≠ notFoundCode)
    (hfuel : k < fuel) :
    (∀ i f, b.query i = .err notFoundCode →
      waitLoop b none (f + 1) i = waitLoop b none f (i + 1)) ∧
    waitForTx b none fuel = ⟨.chainError e, 0, k + 1, 4 * (k + 1)⟩ := by
  constructor
  · intro i f hi
    rw [waitLoop]
    simp [cancelFired, hi]
  · simp only [waitForTx, hb, Bool.false_eq_true, if_false]
    have hskip := waitLoop_skip b k fuel 0
      (fun j hj => by simpa using hnf j hj) (by omega)
    rw [hskip]
    obtain ⟨f, hf⟩ : ∃ f, fuel - k = f + 1 := ⟨fuel - k - 1, by omega⟩
    rw [hf, Nat.zero_add, waitLoop]
    simp [cancelFired, hk, he]

/-- C8 witness: one `NotFound` (retried), then error 5: the wait aborts
with `chainError 5` after exactly two queries. -/
theorem waitForTx_notFound_retries_error_aborts_witness :
    waitForTx chainErrorBackend none 10 = ⟨.chainError 5, 0, 2, 4 * 2⟩ := by
  have h := (waitForTx_notFound_retries_error_aborts chainErrorBackend 1 10 5
    rfl
    (fun j hj => by
      rcases j with _ | j
      · rfl
      · omega)
    rfl (by decide) (by decide)).2
  simpa using h

/-- C9: if the backend exposes the manual force-commit capability,
`waitForTx` invokes `Commit()` exactly once, performs exactly one
synchronous receipt query with no interval elapsed, never enters the
polling loop (the result does not depend on the fuel, the cancellation
signal, or any query past the first), and still fails with the
receipt-failed error on a non-success status — and with the query's own
error if the single receipt query errs. -/
theorem waitForTx_commit_single_check (b : Backend) (cancel : Option Nat)
    (fuel : Nat) (hb : b.hasCommit = true) :
    (waitForTx b cancel fuel).commits = 1 ∧
    (waitForTx b cancel fuel).queries = 1 ∧
    (waitForTx b cancel fuel).elapsed = 0 ∧
    (b.query 0 = .receipt receiptStatusSuccessful →
      (waitForTx b cancel fuel).outcome = .confirmed) ∧
    (∀ s, b.query 0 = .receipt s → s ≠ receiptStatusSuccessful →
      (waitForTx b cancel fuel).outcome = .receiptFailed s) ∧
    (∀ e, b.query 0 = .err e →
      (waitForTx b cancel fuel).outcome = .chainError e) := by
  simp only [waitForTx, hb, if_true]
  cases hq : b.query 0 with
  | err e => simp [hq]
  | receipt s =>
    by_cases hs : s = receiptStatusSuccessful
    · subst hs
      simp [hq]
    · simp [hq, hs]

/-- C9 witness: a force-commit backend returning a failed-status receipt
resolves with one commit and `receiptFailed 0`, even with zero polling
fuel. -/
theorem waitForTx_commit_single_check_witness :
    (waitForTx commitFailBackend none 0).commits = 1 ∧
    (waitForTx commitFailBackend none 0).outcome = .receiptFailed 0 :=
  ⟨(waitForTx_commit_single_check commitFailBackend none 0 rfl).1,
   (waitForTx_commit_single_check commitFailBackend none 0 rfl).2.2.2.2.1
     0 rfl (by decide)⟩

/-- C5 witness: the theorem at a concrete timestamp string. -/
theorem HandleEvent_concrete_900000_witness :
    HandleEvent 900000 10 allOk "2019-05-31T15:00:00Z" =
      (.success ("Token holder event successfully called at "
        ++ "2019-05-31T15:00:00Z" ++ "!"),
       [(.transfer1, some 160000), (.transfer2, some 320000),
        (.sellVouchers, none), (.buyVouchers, none)]) :=
  (HandleEvent_concrete_900000 "2019-05-31T15:00:00Z").2.2.2
